import Mathlib

/-!
Shallow embedding of `src/jquery.accordion.js` (Nessworthy/toolbelt).

The plugin turns a marked-up container element into an accordion: a
container node carries a persisted state value (a jQuery data slot under
the key `js-accordion-content-state`), a trigger sub-element toggles the
state on click, and a content sub-element is shown or hidden to reflect
the state.  Marker classes (`is-accordion`, `is-accordion--collapsed`,
`is-accordion-trigger`, `is-accordion-content`) are applied for styling.

The embedding below translates the source functions one by one:
`toDataSelector`, `getTrigger`, `getContent`, `getState`,
`getDefaultState`, `getElement`, `isCollapsed`, `isVisible`,
`setVisible`, `setCollapsed`, `setDefault`, the per-container
initialization body (`initAccordion`, lines 170-194 of the source), the
click handler (`clickHandler`, lines 175-194), and the module-level
loud preconditions (`loadModule`, lines 26-32).  Throwing JavaScript
code becomes `Except String`; the jQuery data slot becomes a `JSVal`
field on the container model; class additions and removals become
boolean fields; the visual show/hide calls become the `visible` field of
the content model (the animated and instant variants end in the same
visibility, and the state machine never awaits the animation).
-/

/-- A JavaScript value as it can sit in a jQuery data slot or come out of
a property lookup.  `undefined` models an absent slot (what `.data`
returns when nothing was stored and no `data-` attribute exists).  The
plugin itself only ever stores strings; other shapes can arrive from
markup-provided `data-` attributes or from the prototype chain of the
`config.states` object literal.  `func` stands for the non-primitive
values inherited from `Object.prototype` (its method members, and for
`__proto__` the prototype object itself), tagged by the property name:
what matters to this program is that they are truthy and never strictly
equal to any string.  Numbers are modelled as integers (the plugin
performs no arithmetic). -/
inductive JSVal where
  | undefined : JSVal
  | null : JSVal
  | bool : Bool → JSVal
  | num : Int → JSVal
  | str : String → JSVal
  | func : String → JSVal
  deriving DecidableEq

/-- JavaScript truthiness (`!!v`) for the modelled values: `undefined`,
`null`, `false`, `0` and the empty string are falsy; functions and
objects are always truthy. -/
def JSVal.truthy : JSVal → Bool
  | JSVal.undefined => false
  | JSVal.null => false
  | JSVal.bool b => b
  | JSVal.num n => decide (n ≠ 0)
  | JSVal.str s => decide (s ≠ "")
  | JSVal.func _ => true

/-- The `config.states` object literal of the source (lines 45-49): the
enumerated state values and the default key.  The `default` field holds
the KEY of the default state, not its value. -/
structure States where
  visible : String
  collapsed : String
  default : String
  deriving DecidableEq

/-- The property names an object literal inherits from
`Object.prototype`: looked up on `config.states`, each resolves to a
truthy non-string value (a method, or for `__proto__` the prototype
object itself) rather than to `undefined`. -/
def objectPrototypeKeys : List String :=
  ["constructor", "hasOwnProperty", "isPrototypeOf", "propertyIsEnumerable",
   "toLocaleString", "toString", "valueOf",
   "__proto__", "__defineGetter__", "__defineSetter__",
   "__lookupGetter__", "__lookupSetter__"]

/-- JavaScript property lookup `states[key]` on the three-field object
literal: an own field whose name equals `key` wins; failing that the
prototype chain is consulted, so the members of `Object.prototype`
resolve to truthy non-string values; only then is the result
`undefined`. -/
def States.lookup (st : States) (key : String) : JSVal :=
  if key = "visible" then JSVal.str st.visible
  else if key = "collapsed" then JSVal.str st.collapsed
  else if key = "default" then JSVal.str st.default
  else if key ∈ objectPrototypeKeys then JSVal.func key
  else JSVal.undefined

/-- The `config` closure variable of the source (lines 40-50). -/
structure Config where
  data_container : String
  data_trigger : String
  data_content : String
  data_content_state : String
  states : States
  deriving DecidableEq

/-- The exact configuration the source constructs (lines 40-50). -/
def sourceConfig : Config :=
  { data_container := "js-accordion"
    data_trigger := "js-accordion-trigger"
    data_content := "js-accordion-content"
    data_content_state := "js-accordion-content-state"
    states :=
      { visible := "visible"
        collapsed := "collapsed"
        default := "collapsed" } }

/-- `toDataSelector` (lines 59-61): wraps a data-selector around a string. -/
def toDataSelector (dataName : String) : String :=
  "[data-" ++ dataName ++ "]"

/-- The content sub-element of a container, when the structural query
`getContent` finds one: its current visibility and whether the
`is-accordion-content` marker class is present. -/
structure ContentEl where
  visible : Bool
  contentClass : Bool
  deriving DecidableEq

/-- The trigger sub-element of a container, when the structural query
`getTrigger` finds one: whether the `is-accordion-trigger` marker class is
present and whether the click handler has been attached. -/
structure TriggerEl where
  triggerClass : Bool
  bound : Bool
  deriving DecidableEq

/-- One accordion container node: the persisted state slot (jQuery data
under `config.data_content_state`), the `is-accordion` and
`is-accordion--collapsed` marker classes, and the results of the
trigger/content structural queries (`none` models a zero-match query,
which the source tolerates: jQuery methods on an empty collection are
no-ops). -/
structure Container where
  persisted : JSVal
  baseClass : Bool
  collapsedClass : Bool
  content : Option ContentEl
  trigger : Option TriggerEl
  deriving DecidableEq

/-- `getTrigger` (lines 68-70): the trigger element found inside the
container (first/only match; `none` when the query matches nothing). -/
def getTrigger (el : Container) : Option TriggerEl :=
  el.trigger

/-- `getContent` (lines 77-79): the content element found inside the
container (`none` when the query matches nothing). -/
def getContent (el : Container) : Option ContentEl :=
  el.content

/-- `getDefaultState` (lines 98-109): resolves
`config.states[config.states.default]` and throws
`No default state found for accordion.` exactly when the resolved value
is falsy (`undefined` for an absent property, or an empty own field);
any truthy resolved value — an own field, or a member inherited from
`Object.prototype` — is returned as-is. -/
def getDefaultState (c : Config) : Except String JSVal :=
  let state := c.states.lookup c.states.default
  if state.truthy then Except.ok state
  else Except.error ("No default state found for accordion.")

/-- `getState` (lines 86-92): reads the persisted slot; a truthy stored
value is returned as-is, otherwise `getDefaultState()` is returned (which
may throw). -/
def getState (c : Config) (persisted : JSVal) : Except String JSVal :=
  if persisted.truthy then Except.ok persisted
  else getDefaultState c

/-- `isCollapsed` (lines 115-117): strict equality against the collapsed
state value. -/
def isCollapsed (c : Config) (state : JSVal) : Bool :=
  decide (state = JSVal.str c.states.collapsed)

/-- `isVisible` (lines 119-121): strict equality against the visible state
value. -/
def isVisible (c : Config) (state : JSVal) : Bool :=
  decide (state = JSVal.str c.states.visible)

/-- `setVisible` (lines 123-136): persists the visible value, removes the
`is-accordion--collapsed` class, and shows the content (instantly when
`initial`, animated otherwise; both end visible, and a zero-match content
query means no visual effect).  The `initial` flag changes only the
animation mode, which the state machine never awaits. -/
def setVisible (c : Config) (el : Container) (initial : Bool) : Container :=
  { el with
    persisted := JSVal.str c.states.visible
    collapsedClass := false
    content := el.content.map (fun ct => { ct with visible := true }) }

/-- `setCollapsed` (lines 138-151): persists the collapsed value, adds the
`is-accordion--collapsed` class, and hides the content (instantly when
`initial`, animated otherwise). -/
def setCollapsed (c : Config) (el : Container) (initial : Bool) : Container :=
  { el with
    persisted := JSVal.str c.states.collapsed
    collapsedClass := true
    content := el.content.map (fun ct => { ct with visible := false }) }

/-- `setDefault` (lines 153-168): reads the default KEY
(`config.states.default`) and compares it — not the value it maps to —
against the collapsed and visible VALUES via `isCollapsed`/`isVisible`.
When neither comparison matches, it silently does nothing: it never calls
`getDefaultState` and cannot throw. -/
def setDefault (c : Config) (el : Container) : Container :=
  let state := c.states.default
  if isCollapsed c (JSVal.str state) then setCollapsed c el true
  else if isVisible c (JSVal.str state) then setVisible c el true
  else el

/-- The per-container initialization body (lines 170-175): apply the
default state, add `is-accordion` to the container, `is-accordion-content`
to the content match, and `is-accordion-trigger` plus the click handler to
the trigger match.  Zero-match queries receive nothing. -/
def initAccordion (c : Config) (el : Container) : Container :=
  let el1 : Container := setDefault c el
  let el2 : Container := { el1 with baseClass := true }
  let el3 : Container :=
    { el2 with
      content := el2.content.map (fun ct : ContentEl => { ct with contentClass := true }) }
  { el3 with
    trigger := el3.trigger.map (fun t : TriggerEl => { t with triggerClass := true, bound := true }) }

/-- The outcome of one click-handler run: the updated owning container and
whether `ev.preventDefault()` was called. -/
structure ClickResult where
  container : Container
  defaultPrevented : Bool
  deriving DecidableEq

/-- The click handler (lines 175-194): prevents the default event
behavior, resolves the owning container, reads its current state (which
may throw), and toggles — collapsed activates `setVisible`, visible
activates `setCollapsed`, anything else falls through both guards and
changes nothing. -/
def clickHandler (c : Config) (el : Container) : Except String ClickResult :=
  (getState c el.persisted).map (fun state =>
    if isCollapsed c state then
      { container := setVisible c el false, defaultPrevented := true }
    else if isVisible c state then
      { container := setCollapsed c el false, defaultPrevented := true }
    else
      { container := el, defaultPrevented := true })

/-- One user activation of a container's trigger under the source
configuration, totalized for iteration: on the (impossible under the
claims' hypotheses) throwing path the container is returned unchanged. -/
def activate (el : Container) : Container :=
  match clickHandler sourceConfig el with
  | Except.ok r => r.container
  | Except.error _ => el

/-- `n` successive trigger activations. -/
def activateN : Nat → Container → Container
  | 0, el => el
  | n + 1, el => activateN n (activate el)

/-- `getElement` (lines 111-113) at page level: a page is a list of
pairwise-disjoint (non-nested) containers, so the nearest ancestor
container of a trigger living inside container `i` is container `i`
itself. -/
def getElement (page : List Container) (ownerIdx : Nat) : Option Container :=
  page[ownerIdx]?

/-- A click on a trigger whose owning container is `page[i]`: the handler
resolves that container via `getElement` and runs on it alone; with no
such container the page is untouched. -/
def activateTriggerIn (c : Config) (page : List Container) (i : Nat) :
    Except String (List Container) :=
  match getElement page i with
  | none => Except.ok page
  | some parent => (clickHandler c parent).map (fun r => page.set i r.container)

/-- The host environment as the module-level preconditions see it (lines
26-32): whether `typeof window.jQuery` is a function and whether
`typeof window.jQuery.fn.accordion` already is one. -/
structure Host where
  jQueryIsFunction : Bool
  accordionIsFunction : Bool
  deriving DecidableEq

/-- Module load (lines 26-32): throws when jQuery is missing or the
plugin namespace is already taken; only otherwise does it register the
plugin and bootstrap any containers. -/
def loadModule (h : Host) : Except String Unit :=
  if !h.jQueryIsFunction then
    Except.error ("jQuery is not defined, silly!")
  else if h.accordionIsFunction then
    Except.error ("The jQuery plugin namespace accordion is already taken!")
  else Except.ok ()

/-- The source configuration with the default KEY replaced: the only
field a misconfiguration claim can vary. -/
def cfgWithDefault (d : String) : Config :=
  { sourceConfig with
    states :=
      { visible := "visible"
        collapsed := "collapsed"
        default := d } }

/-- A fresh, never-initialized container with one trigger and one content
match, as produced by the required markup structure. -/
def freshContainer : Container :=
  { persisted := JSVal.undefined
    baseClass := false
    collapsedClass := false
    content := some { visible := true, contentClass := false }
    trigger := some { triggerClass := false, bound := false } }

/-- The invariant relating the `is-accordion--collapsed` marker class to
the persisted state under the source configuration. -/
def stateClassInv (el : Container) : Prop :=
  el.collapsedClass = true ↔ el.persisted = JSVal.str ("collapsed")

/-- The toggle on persisted state values: visible and collapsed swap. -/
def flipState (v : JSVal) : JSVal :=
  if v = JSVal.str ("visible") then JSVal.str ("collapsed") else JSVal.str ("visible")

/-- A container whose persisted slot holds a truthy value that is neither
enumerated state value. -/
def bogusContainer : Container :=
  { freshContainer with persisted := JSVal.str ("bogus") }

/-- The fresh container after initialization under the source
configuration. -/
def elInit : Container :=
  initAccordion sourceConfig freshContainer

/-- The initialized container after one trigger activation: state visible,
collapsed marker removed, content shown. -/
def elInitToggled : Container :=
  { persisted := JSVal.str ("visible")
    baseClass := true
    collapsedClass := false
    content := some { visible := true, contentClass := true }
    trigger := some { triggerClass := true, bound := true } }

/-- A container whose trigger structural query matched nothing. -/
def elNoTrigger : Container :=
  { persisted := JSVal.undefined
    baseClass := false
    collapsedClass := false
    content := some { visible := true, contentClass := false }
    trigger := none }

/-- A page holding two initialized containers. -/
def pageTwo : List Container :=
  [elInit, elInit]

/-- The same page after activating the trigger owned by container 0. -/
def pageTwoAfter : List Container :=
  [elInitToggled, elInit]

/-- Claim C1 counterexample.  The claim states that an unresolvable
default key makes initialization throw a ConfigurationError and leaves
the container with no marker classes.  At the concrete input below —
the source configuration with default key replaced by `bogus`, run on a
fresh container — initialization completes normally (the embedding of
`setDefault` is total because the source never calls `getDefaultState`
during initialization) and the `is-accordion`, `is-accordion-content`
and `is-accordion-trigger` marker classes ARE applied; only the state
application is silently skipped. -/
theorem C1_counterexample :
    (initAccordion (cfgWithDefault ("bogus")) freshContainer).baseClass = true ∧
    (initAccordion (cfgWithDefault ("bogus")) freshContainer).trigger =
      some { triggerClass := true, bound := true } ∧
    (initAccordion (cfgWithDefault ("bogus")) freshContainer).content =
      some { visible := true, contentClass := true } ∧
    (initAccordion (cfgWithDefault ("bogus")) freshContainer).persisted = JSVal.undefined := by
  decide

/-- Claim C1 as amended.  If the configured default key matches neither
enumerated state value, initialization does not throw: `setDefault`
silently applies no state, leaving the persisted slot and the collapsed
marker untouched, while the base marker classes are still applied.  No
ConfigurationError is raised during initialization for any key.  What
happens later depends on what `states[key]` resolves to when `getState`
first needs the default (e.g. on the first trigger activation of a
container with no truthy persisted state): if the lookup — own
properties first, then the `Object.prototype` chain — yields nothing,
`getState` throws the ConfigurationError then; if it yields a truthy
value (the own key `default` resolving to the key string itself, or an
inherited member such as `toString`), that activation succeeds as a
complete no-op, since the resolved value matches neither state value. -/
theorem C1_amended (d : String) (h1 : d ≠ "visible") (h2 : d ≠ "collapsed")
    (el : Container) :
    (initAccordion (cfgWithDefault d) el).persisted = el.persisted ∧
    (initAccordion (cfgWithDefault d) el).collapsedClass = el.collapsedClass ∧
    (initAccordion (cfgWithDefault d) el).baseClass = true ∧
    (States.lookup (cfgWithDefault d).states d = JSVal.undefined →
      el.persisted.truthy = false →
      clickHandler (cfgWithDefault d) (initAccordion (cfgWithDefault d) el) =
        Except.error ("No default state found for accordion.")) ∧
    ((States.lookup (cfgWithDefault d).states d).truthy = true →
      el.persisted.truthy = false →
      clickHandler (cfgWithDefault d) (initAccordion (cfgWithDefault d) el) =
        Except.ok { container := initAccordion (cfgWithDefault d) el,
                    defaultPrevented := true }) := by
  have hsd : setDefault (cfgWithDefault d) el = el := by
    simp [setDefault, isCollapsed, isVisible, cfgWithDefault, sourceConfig, h1, h2]
  have hpers : (initAccordion (cfgWithDefault d) el).persisted = el.persisted := by
    simp [initAccordion, hsd]
  refine ⟨hpers, ?_, ?_, ?_, ?_⟩
  · simp [initAccordion, hsd]
  · simp [initAccordion]
  · intro hlk htr
    have hdef : getDefaultState (cfgWithDefault d) =
        Except.error ("No default state found for accordion.") := by
      simp [getDefaultState, cfgWithDefault] at hlk ⊢
      simp [hlk, JSVal.truthy]
    simp [clickHandler, getState, hpers, htr, hdef, Except.map]
  · intro hlk htr
    have hpt : (initAccordion (cfgWithDefault d) el).persisted.truthy = false := by
      rw [hpers]
      exact htr
    have hgs : getState (cfgWithDefault d) (initAccordion (cfgWithDefault d) el).persisted =
        getDefaultState (cfgWithDefault d) := by
      simp [getState, hpt]
    have hgd : getDefaultState (cfgWithDefault d) =
        Except.ok (States.lookup (cfgWithDefault d).states d) := by
      have hdk : (cfgWithDefault d).states.default = d := rfl
      simp [getDefaultState, hdk, hlk]
    have hlt : States.lookup (cfgWithDefault d).states d = JSVal.str d ∨
        States.lookup (cfgWithDefault d).states d = JSVal.func d := by
      by_cases hd : d = "default"
      · left
        simp [States.lookup, cfgWithDefault, sourceConfig, h1, h2, hd]
      · by_cases hobj : d ∈ objectPrototypeKeys
        · right
          simp [States.lookup, cfgWithDefault, sourceConfig, h1, h2, hd, hobj]
        · exfalso
          simp [States.lookup, cfgWithDefault, sourceConfig, h1, h2, hd, hobj,
            JSVal.truthy] at hlk
    rcases hlt with hv | hv
    · have hic : isCollapsed (cfgWithDefault d) (JSVal.str d) = false := by
        simp [isCollapsed, cfgWithDefault, sourceConfig, h2]
      have hiv : isVisible (cfgWithDefault d) (JSVal.str d) = false := by
        simp [isVisible, cfgWithDefault, sourceConfig, h1]
      simp [clickHandler, hgs, hgd, hv, Except.map, hic, hiv]
    · have hic : isCollapsed (cfgWithDefault d) (JSVal.func d) = false := by
        simp [isCollapsed]
      have hiv : isVisible (cfgWithDefault d) (JSVal.func d) = false := by
        simp [isVisible]
      simp [clickHandler, hgs, hgd, hv, Except.map, hic, hiv]

/-- Claim C1 amended, witness: at the default key `bogus` (resolving to
nothing) initialization leaves the fresh container's state untouched
while applying the base marker class, and the ConfigurationError appears
only on the first activation; at the inherited key `toString` (resolving
to a truthy function) even that activation is an error-free no-op. -/
theorem C1_amended_witness :
    (initAccordion (cfgWithDefault ("bogus")) freshContainer).persisted =
      freshContainer.persisted ∧
    (initAccordion (cfgWithDefault ("bogus")) freshContainer).collapsedClass =
      freshContainer.collapsedClass ∧
    (initAccordion (cfgWithDefault ("bogus")) freshContainer).baseClass = true ∧
    clickHandler (cfgWithDefault ("bogus"))
        (initAccordion (cfgWithDefault ("bogus")) freshContainer) =
      Except.error ("No default state found for accordion.") ∧
    clickHandler (cfgWithDefault ("toString"))
        (initAccordion (cfgWithDefault ("toString")) freshContainer) =
      Except.ok { container := initAccordion (cfgWithDefault ("toString")) freshContainer,
                  defaultPrevented := true } :=
  ⟨(C1_amended ("bogus") (by decide) (by decide) freshContainer).1,
   (C1_amended ("bogus") (by decide) (by decide) freshContainer).2.1,
   (C1_amended ("bogus") (by decide) (by decide) freshContainer).2.2.1,
   (C1_amended ("bogus") (by decide) (by decide) freshContainer).2.2.2.1
     (by decide) (by decide),
   (C1_amended ("toString") (by decide) (by decide) freshContainer).2.2.2.2
     (by decide) (by decide)⟩

/-- Claim C3: `getState` returns the persisted value whenever one is
present (any truthy stored value, in particular either enumerated state
value), and otherwise returns the value `getDefaultState` resolves the
configured default key to — under the source configuration, `collapsed`. -/
theorem C3_getState_spec :
    (∀ v : JSVal, v.truthy = true → getState sourceConfig v = Except.ok v) ∧
    getState sourceConfig JSVal.undefined = getDefaultState sourceConfig ∧
    getDefaultState sourceConfig = Except.ok (JSVal.str ("collapsed")) := by
  refine ⟨?_, rfl, rfl⟩
  intro v hv
  simp [getState, hv]

/-- Claim C3, witness: a persisted `visible` value is returned as-is. -/
theorem C3_getState_spec_witness :
    getState sourceConfig (JSVal.str ("visible")) = Except.ok (JSVal.str ("visible")) :=
  C3_getState_spec.1 (JSVal.str ("visible")) (by decide)

/-- Claim C4: re-running initialization on a container always re-persists
the configured default state (collapsed under the source configuration),
whatever the container held before — in particular after any number `n`
of intervening user toggles. -/
theorem C4_reinit_resets (el : Container) (n : Nat) :
    (initAccordion sourceConfig (activateN n (initAccordion sourceConfig el))).persisted =
      JSVal.str ("collapsed") ∧
    (initAccordion sourceConfig (activateN n (initAccordion sourceConfig el))).collapsedClass =
      true ∧
    getDefaultState sourceConfig = Except.ok (JSVal.str ("collapsed")) := by
  refine ⟨?_, ?_, rfl⟩ <;>
    simp [initAccordion, setDefault, setCollapsed, isCollapsed, isVisible, sourceConfig]

/-- Claim C9: any falsy persisted value (the empty string, `false`, `0`,
`null`, `undefined`) is treated as absent by `getState`, which then
returns the default state value instead of the stored value. -/
theorem C9_falsy_is_absent (v : JSVal) (hv : v.truthy = false) :
    getState sourceConfig v = getDefaultState sourceConfig ∧
    getState sourceConfig v = Except.ok (JSVal.str ("collapsed")) := by
  have h : getState sourceConfig v = getDefaultState sourceConfig := by
    simp [getState, hv]
  exact ⟨h, by rw [h]; rfl⟩

/-- Claim C9, witness at the empty-string persisted value. -/
theorem C9_falsy_is_absent_witness :
    getState sourceConfig (JSVal.str ("")) = Except.ok (JSVal.str ("collapsed")) :=
  (C9_falsy_is_absent (JSVal.str ("")) (by decide)).2

/-- Claim C8: the module-level preconditions fail fast — if the DOM-query
capability (jQuery) is unavailable, or the `accordion` plugin namespace is
already registered, loading the module throws before anything is
registered or initialized. -/
theorem C8_fail_fast (h : Host)
    (hb : h.jQueryIsFunction = false ∨ h.accordionIsFunction = true) :
    ∃ msg : String, loadModule h = Except.error msg := by
  cases hj : h.jQueryIsFunction with
  | false =>
      exact ⟨("jQuery is not defined, silly!"), by simp [loadModule, hj]⟩
  | true =>
      rcases hb with hb | hb
      · rw [hj] at hb
        exact absurd hb (by simp)
      · exact ⟨("The jQuery plugin namespace accordion is already taken!"),
          by simp [loadModule, hj, hb]⟩

/-- Claim C8, witness: a host with no jQuery makes the module load fail. -/
theorem C8_fail_fast_witness :
    ∃ msg : String,
      loadModule { jQueryIsFunction := false, accordionIsFunction := false } =
        Except.error msg :=
  C8_fail_fast { jQueryIsFunction := false, accordionIsFunction := false } (Or.inl rfl)

/-- Claim C10: when the current state read by `getState` is a value that
matches neither the visible nor the collapsed state value, a trigger
activation falls through both guards of the click handler and is a
complete no-op apart from `ev.preventDefault()`: the handler succeeds and
returns the container unchanged — persisted slot, marker classes and
content visibility untouched. -/
theorem C10_unknown_state_noop (el : Container) (v : JSVal)
    (h1 : getState sourceConfig el.persisted = Except.ok v)
    (h2 : isCollapsed sourceConfig v = false)
    (h3 : isVisible sourceConfig v = false) :
    clickHandler sourceConfig el =
      Except.ok { container := el, defaultPrevented := true } := by
  simp [clickHandler, h1, h2, h3, Except.map]

/-- Claim C10, witness: a container with persisted value `bogus` is left
exactly as it was by an activation. -/
theorem C10_unknown_state_noop_witness :
    clickHandler sourceConfig bogusContainer =
      Except.ok { container := bogusContainer, defaultPrevented := true } :=
  C10_unknown_state_noop bogusContainer (JSVal.str ("bogus")) rfl (by decide) (by decide)

/-- Claim C6: missing structure is not an error.  A container whose
trigger query matched nothing gets no activation handler attached by
initialization; a container whose content query matched nothing still has
transitions record the new persisted state and update the collapsed
marker class, with no visual layer to affect. -/
theorem C6_soft_absence :
    (∀ el : Container, el.trigger = none →
      (initAccordion sourceConfig el).trigger = none) ∧
    (∀ el : Container, el.content = none →
      (setVisible sourceConfig el false).persisted = JSVal.str ("visible") ∧
      (setVisible sourceConfig el false).collapsedClass = false ∧
      (setVisible sourceConfig el false).content = none ∧
      (setCollapsed sourceConfig el false).persisted = JSVal.str ("collapsed") ∧
      (setCollapsed sourceConfig el false).collapsedClass = true ∧
      (setCollapsed sourceConfig el false).content = none) := by
  constructor
  · intro el h
    simp [initAccordion, setDefault, setCollapsed, setVisible, isCollapsed, isVisible,
      sourceConfig, h]
  · intro el h
    simp [setVisible, setCollapsed, sourceConfig, h]

/-- Claim C6, witness: initializing a container with no trigger attaches
no handler. -/
theorem C6_soft_absence_witness :
    (initAccordion sourceConfig elNoTrigger).trigger = none :=
  C6_soft_absence.1 elNoTrigger rfl

/-- Claim C5: the `is-accordion--collapsed` marker class tracks the
persisted state.  Initialization always establishes the invariant
`collapsed marker present iff persisted state = collapsed`, and every
successful activation preserves it — so every initialized container
satisfies it after each state-changing operation. -/
theorem C5_class_tracks_state :
    (∀ el : Container, stateClassInv (initAccordion sourceConfig el)) ∧
    (∀ el : Container, ∀ r : ClickResult, stateClassInv el →
      clickHandler sourceConfig el = Except.ok r → stateClassInv r.container) := by
  constructor
  · intro el
    simp [stateClassInv, initAccordion, setDefault, setCollapsed, isCollapsed, isVisible,
      sourceConfig]
  · intro el r hinv hok
    cases hgs : getState sourceConfig el.persisted with
    | error e => simp [clickHandler, hgs, Except.map] at hok
    | ok v =>
        simp [clickHandler, hgs, Except.map] at hok
        by_cases hc : isCollapsed sourceConfig v = true
        · rw [if_pos hc] at hok
          rw [← hok]
          simp [stateClassInv, setVisible, sourceConfig]
        · rw [if_neg hc] at hok
          by_cases hv : isVisible sourceConfig v = true
          · rw [if_pos hv] at hok
            rw [← hok]
            simp [stateClassInv, setCollapsed, sourceConfig]
          · rw [if_neg hv] at hok
            rw [← hok]
            exact hinv

/-- Claim C5, witness: the invariant holds for the toggled result of
activating a freshly initialized container. -/
theorem C5_class_tracks_state_witness : stateClassInv elInitToggled :=
  C5_class_tracks_state.2 elInit { container := elInitToggled, defaultPrevented := true }
    ⟨fun _ => rfl, fun _ => rfl⟩ (by rfl)

/-- Claim C7: containers toggle independently.  An activation whose
trigger is owned by container `i` resolves that container via the
nearest-ancestor lookup and mutates only it: every other position of the
page is unchanged, persisted state and marker classes included. -/
theorem C7_independent_containers (c : Config) (page q : List Container) (i j : Nat)
    (hne : j ≠ i) (h : activateTriggerIn c page i = Except.ok q) :
    q[j]? = page[j]? := by
  unfold activateTriggerIn getElement at h
  cases hp : page[i]? with
  | none =>
      rw [hp] at h
      simp at h
      rw [h]
  | some parent =>
      rw [hp] at h
      cases hc : clickHandler c parent with
      | error e => simp [hc, Except.map] at h
      | ok r =>
          simp [hc, Except.map] at h
          rw [← h]
          exact (List.getElem?_set_ne (fun hij => hne hij.symm) : (page.set i r.container)[j]? = page[j]?)

/-- Claim C7, witness: on a two-container page, activating the trigger of
container 0 leaves container 1 exactly as it was. -/
theorem C7_independent_containers_witness : pageTwoAfter[1]? = pageTwo[1]? :=
  C7_independent_containers sourceConfig pageTwo pageTwoAfter 0 1 (by decide) (by rfl)

/-- Helper: activating a container whose persisted state is the visible
value persists the collapsed value. -/
theorem activate_persisted_of_visible (el : Container)
    (h : el.persisted = JSVal.str ("visible")) :
    (activate el).persisted = JSVal.str ("collapsed") := by
  simp [activate, clickHandler, getState, h, JSVal.truthy, isCollapsed, isVisible,
    sourceConfig, setCollapsed, setVisible, Except.map]

/-- Helper: activating a container whose persisted state is the collapsed
value persists the visible value. -/
theorem activate_persisted_of_collapsed (el : Container)
    (h : el.persisted = JSVal.str ("collapsed")) :
    (activate el).persisted = JSVal.str ("visible") := by
  simp [activate, clickHandler, getState, h, JSVal.truthy, isCollapsed, isVisible,
    sourceConfig, setCollapsed, setVisible, Except.map]

/-- Helper: the persisted state after `n` activations is determined by
the starting state and the parity of `n` alone. -/
theorem activateN_persisted (n : Nat) : ∀ el : Container,
    el.persisted = JSVal.str ("visible") ∨ el.persisted = JSVal.str ("collapsed") →
    (activateN n el).persisted =
      if n % 2 = 0 then el.persisted else flipState el.persisted := by
  induction n with
  | zero =>
      intro el h
      simp [activateN]
  | succ k ih =>
      intro el h
      rw [activateN]
      rcases h with h | h
      · have ha : (activate el).persisted = JSVal.str ("collapsed") :=
          activate_persisted_of_visible el h
        rw [ih (activate el) (Or.inr ha), ha, h]
        by_cases hk : k % 2 = 0
        · have hk1 : (k + 1) % 2 = 1 := by omega
          simp [hk, hk1, flipState]
        · have hk0 : k % 2 = 1 := by omega
          have hk1 : (k + 1) % 2 = 0 := by omega
          simp [hk0, hk1, flipState]
      · have ha : (activate el).persisted = JSVal.str ("visible") :=
          activate_persisted_of_collapsed el h
        rw [ih (activate el) (Or.inl ha), ha, h]
        by_cases hk : k % 2 = 0
        · have hk1 : (k + 1) % 2 = 1 := by omega
          simp [hk, hk1, flipState]
        · have hk0 : k % 2 = 1 := by omega
          have hk1 : (k + 1) % 2 = 0 := by omega
          simp [hk0, hk1, flipState]

/-- Claim C2: from either starting state, one activation toggles the
persisted state to the other value, two successive activations restore
the pre-toggle state, and after `n` activations the persisted state
depends only on the starting state and the parity of `n` — the state
machine is synchronous, with no dependence on animation completion. -/
theorem C2_toggle_parity (el : Container)
    (h : el.persisted = JSVal.str ("visible") ∨ el.persisted = JSVal.str ("collapsed")) :
    (el.persisted = JSVal.str ("visible") →
      (activate el).persisted = JSVal.str ("collapsed")) ∧
    (el.persisted = JSVal.str ("collapsed") →
      (activate el).persisted = JSVal.str ("visible")) ∧
    (activate (activate el)).persisted = el.persisted ∧
    (∀ n : Nat, (activateN n el).persisted =
      if n % 2 = 0 then el.persisted else flipState el.persisted) := by
  refine ⟨fun hv => activate_persisted_of_visible el hv,
    fun hc => activate_persisted_of_collapsed el hc, ?_,
    fun n => activateN_persisted n el h⟩
  rcases h with h | h
  · rw [activate_persisted_of_collapsed _ (activate_persisted_of_visible el h), h]
  · rw [activate_persisted_of_visible _ (activate_persisted_of_collapsed el h), h]

/-- Claim C2, witness: a freshly initialized (collapsed) container is
back in its pre-toggle state after two activations. -/
theorem C2_toggle_parity_witness :
    (activate (activate elInit)).persisted = elInit.persisted :=
  (C2_toggle_parity elInit (Or.inr (by rfl))).2.2.1
